import Mathlib

/-!
Shallow embedding of the `blockstores` package of the convoy repository
(`src/blockstores/blockstores.go`) together with theorems settling the
claims about it.

Modelling conventions:
* Go `string` is Lean `String`; Go byte slices are `List Nat` (each entry a
  byte value).  Go `uint64` offset arithmetic is `Nat` reduced `% 2 ^ 64`
  where the source can overflow.
* `map[string]T` is an association list `List (String × T)` with `lookupKey`,
  `insertKey`, `eraseKey` mirroring Go map read, assignment and `delete`.
* The remote blockstore is a map from `path ++ "/" ++ fileName` keys to
  stored objects.  Since `encoding/json` round-trips the structures
  faithfully, remote objects are kept structured (`RObj`), with a non-map
  payload standing for an unmarshal failure.
* Fallible driver calls (`MkDirAll`, `Write`, `RemoveAll`,
  `CompareSnapshot`, `ReadSnapshot`) are given failure oracles so that
  every error return path of the source is represented.
* `sha512.Sum512` is an uninterpreted parameter `sha512 : List Nat → List Nat`;
  the SHA-512 primitive itself is outside the repository.
-/

/-! Constants from the top of blockstores.go. -/

def BLOCKSTORE_BASE : String := "rancher-blockstore"

def VOLUME_DIRECTORY : String := "volume"

def VOLUME_CONFIG_FILE : String := "volume.cfg"

def SNAPSHOTS_DIRECTORY : String := "snapshots"

def BLOCKS_DIRECTORY : String := "blocks"

def BLOCK_SEPARATE_LAYER1 : Nat := 2

def BLOCK_SEPARATE_LAYER2 : Nat := 4

def DEFAULT_BLOCK_SIZE : Nat := 2097152

def PRESERVED_CHECKSUM_LENGTH : Nat := 64

/-! Association-list maps mirroring Go map operations. -/

def lookupKey {β : Type} : List (String × β) → String → Option β
  | [], _ => none
  | (k, v) :: rest, key => if k = key then some v else lookupKey rest key

def insertKey {β : Type} : List (String × β) → String → β → List (String × β)
  | [], key, v => [(key, v)]
  | (k, w) :: rest, key, v =>
    if k = key then (key, v) :: rest else (k, w) :: insertKey rest key v

def eraseKey {β : Type} : List (String × β) → String → List (String × β)
  | [], _ => []
  | (k, w) :: rest, key => if k = key then rest else (k, w) :: eraseKey rest key

/-! Data model structures (blockstores.go lines 43-63). -/

structure Volume where
  Size : Nat
  Base : String
  LastSnapshotId : String
  deriving DecidableEq, Repr

structure BlockStore where
  Kind : String
  BlockSize : Nat
  Volumes : List (String × Volume)
  deriving DecidableEq, Repr

structure BlockMapping where
  Offset : Nat
  Block : String
  deriving DecidableEq, Repr

structure SnapshotMap where
  Id : String
  Blocks : List BlockMapping
  deriving DecidableEq, Repr

/-- Delta extent reported by the local snapshot driver (metadata.Mappings entry). -/
structure Mapping where
  Offset : Nat
  Size : Nat
  deriving DecidableEq, Repr

set_option linter.dupNamespace false

/-- Delta description returned by sDriver.CompareSnapshot (metadata.Mappings). -/
structure Mappings where
  BlockSize : Nat
  Mappings : List Mapping
  deriving DecidableEq, Repr

/-! Hex digest computation (blockstores.go lines 319-320):
`hex.EncodeToString(sha512.Sum512(block)[:])[:PRESERVED_CHECKSUM_LENGTH]`. -/

/-- Lower-case hexadecimal digit, as produced by encoding/hex. -/
def hexDigit (n : Nat) : Char :=
  if n < 10 then Char.ofNat (48 + n) else Char.ofNat (87 + n)

/-- encoding/hex EncodeToString on a byte list: two lower-case hex
characters per byte, high nibble first. -/
def hexEncodeL : List Nat → List Char
  | [] => []
  | b :: rest => hexDigit (b % 256 / 16) :: hexDigit (b % 16) :: hexEncodeL rest

/-- The block digest: first PRESERVED_CHECKSUM_LENGTH characters of the hex
rendering of the hash bytes. -/
def blockChecksum (hash : List Nat) : String :=
  String.mk ((hexEncodeL hash).take PRESERVED_CHECKSUM_LENGTH)

/-! Path derivation (blockstores.go lines 240-259). -/

def getConfigFilename (root id : String) : String :=
  root ++ "/" ++ id ++ ".cfg"

def getVolumePath (volumeId : String) : String :=
  BLOCKSTORE_BASE ++ "/" ++ VOLUME_DIRECTORY ++ "/" ++ volumeId

def getSnapshotsPath (volumeId : String) : String :=
  getVolumePath volumeId ++ "/" ++ SNAPSHOTS_DIRECTORY

def getSnapshotConfigName (id : String) : String :=
  "snapshot-" ++ id ++ ".cfg"

/-- Go string slicing `s[a:b]` (by character; the digests sliced in the
source are ASCII, where characters coincide with bytes).  Returns `none`
exactly when Go would panic with a slice-bounds error. -/
def goSlice (s : String) (a b : Nat) : Option String :=
  if a ≤ b ∧ b ≤ s.length then some (String.mk ((s.data.take b).drop a)) else none

/-- getBlockPathAndFileName, with the out-of-bounds slice panic surfaced as
`none`. -/
def getBlockPathAndFileName (volumeId checksum : String) : Option (String × String) :=
  match goSlice checksum 0 BLOCK_SEPARATE_LAYER1,
        goSlice checksum BLOCK_SEPARATE_LAYER1 BLOCK_SEPARATE_LAYER2 with
  | some l1, some l2 =>
    some (getVolumePath volumeId ++ "/" ++ BLOCKS_DIRECTORY ++ "/" ++ l1 ++ "/" ++ l2,
          checksum ++ ".blk")
  | _, _ => none

/-! mergeSnapshotMap (blockstores.go lines 369-396). -/

/-- Inner loop of the two-pointer merge: `f` is the continuation for the
remaining delta entries (`f = mergeBlocks ds`). -/
def mergeGo (f : List BlockMapping → List BlockMapping) (dB : BlockMapping) :
    List BlockMapping → List BlockMapping
  | [] => []
  | lB :: ls =>
    if dB.Offset = lB.Offset then dB :: f ls
    else if dB.Offset < lB.Offset then dB :: f (lB :: ls)
    else lB :: mergeGo f dB ls

/-- The two-pointer loop of mergeSnapshotMap, in structurally recursive
form (see `mergeBlocks_cons_cons` below: the defining equations are exactly
the Go loop body).  The Go loop runs while
`d < len(deltaMap.Blocks) && l < len(lastMap.Blocks)` and stops as soon as
either side is exhausted; no remainder is appended afterwards. -/
def mergeBlocks : List BlockMapping → List BlockMapping → List BlockMapping
  | [], _ => []
  | dB :: ds, ls => mergeGo (mergeBlocks ds) dB ls

/-- Strictly ascending by offset; `Pairwise (<)` also rules out duplicate
offsets. -/
def ascBlocks (bs : List BlockMapping) : Prop :=
  bs.Pairwise (fun a b => a.Offset < b.Offset)

instance (bs : List BlockMapping) : Decidable (ascBlocks bs) :=
  inferInstanceAs (Decidable (bs.Pairwise fun a b : BlockMapping => a.Offset < b.Offset))

/-- The sixteen characters encoding/hex can emit: hexDigit of the nibble
values 0 through 15. -/
def lowerHexChars : List Char := (List.range 16).map hexDigit

def mergeSnapshotMap (snapshotId : String) (deltaMap lastMap : SnapshotMap) : SnapshotMap :=
  if lastMap.Blocks.length = 0 then { deltaMap with Id := snapshotId }
  else { Id := snapshotId, Blocks := mergeBlocks deltaMap.Blocks lastMap.Blocks }

/-! Driver registry (blockstores.go lines 65-86).  The constructor type
InitFunc is kept abstract as a type parameter. -/

/-- RegisterDriver over the process-wide `kind → constructor` map; returns
the error (if any) together with the map after the call. -/
def RegisterDriver {α : Type} (inits : List (String × α)) (kind : String) (f : α) :
    Option String × List (String × α) :=
  if (lookupKey inits kind).isSome then
    (some (kind ++ " has already been registered"), inits)
  else (none, insertKey inits kind f)

/-! Environment: remote object store, local config files, driver registry. -/

/-- Object stored in the remote blockstore.  `json.Marshal` / `json.Unmarshal`
round-trip the Go structures, so manifests and volume configs are kept
structured; `blk` holds raw block bytes. -/
inductive RObj where
  | blk (data : List Nat)
  | snap (m : SnapshotMap)
  | vol (v : Volume)
  deriving DecidableEq, Repr

/-- State visible to one blockstore operation: registered driver kinds, the
remote object store (keyed by `path ++ "/" ++ fileName`) and the local
config files. -/
structure BsEnv where
  kinds : List String
  remote : List (String × RObj)
  locals : List (String × BlockStore)
  deriving DecidableEq, Repr

/-- Behaviour of the local snapshot driver (sDriver) for one call:
the delta CompareSnapshot reports, and the contents ReadSnapshot returns
per offset, with failure switches for both. -/
structure SnapEnv where
  delta : Mappings
  compareFails : Bool
  readSnapFails : Nat → Bool
  readSnap : Nat → List Nat

/-- Failure oracle for the fallible remote driver calls. -/
structure BsOracle where
  mkdirFails : String → Bool
  writeFails : String → Bool
  removeFails : String → Bool

/-- The all-succeed oracle. -/
def noFail : BsOracle := ⟨fun _ => false, fun _ => false, fun _ => false⟩

def fileKey (path fileName : String) : String := path ++ "/" ++ fileName

def rLookup (remote : List (String × RObj)) (key : String) : Option RObj :=
  lookupKey remote key

/-- Driver FileSize: byte length of the object, or -1 when absent. -/
def rFileSize (remote : List (String × RObj)) (path fileName : String) : Int :=
  match rLookup remote (fileKey path fileName) with
  | some (.blk data) => (data.length : Int)
  | some _ => 0
  | none => -1

/-- Driver RemoveAll: drops the object at `p` and everything below it. -/
def removeAllR (remote : List (String × RObj)) (p : String) : List (String × RObj) :=
  remote.filter (fun kv => ¬ (kv.1 = p ∨ (p ++ "/").isPrefixOf kv.1))

/-! AddVolume (blockstores.go lines 158-207). -/

/-- Result of an operation that can mutate the environment. -/
structure OpOut where
  err : Option String
  env : BsEnv
  deriving DecidableEq, Repr

def AddVolume (orc : BsOracle) (env : BsEnv) (root id volumeId base : String)
    (size : Nat) : OpOut :=
  let configFile := getConfigFilename root id
  match lookupKey env.locals configFile with
  | none => ⟨some "failed to load config", env⟩
  | some b =>
    if (lookupKey b.Volumes volumeId).isSome then
      ⟨some ("volume " ++ volumeId ++ " already exists in blockstore " ++ id), env⟩
    else if ¬ env.kinds.contains b.Kind then
      ⟨some ("Driver " ++ b.Kind ++ " is not supported!"), env⟩
    else
      let volumeDir := getVolumePath volumeId
      if orc.mkdirFails volumeDir then ⟨some "mkdir failed", env⟩
      else
        let volume : Volume := ⟨size, base, ""⟩
        let b' : BlockStore := { b with Volumes := insertKey b.Volumes volumeId volume }
        let env1 : BsEnv := { env with locals := insertKey env.locals configFile b' }
        let volumePath := getVolumePath volumeId
        let vKey := fileKey volumePath VOLUME_CONFIG_FILE
        if (rLookup env1.remote vKey).isSome then
          ⟨some "volume config file already existed in blockstore", env1⟩
        else if orc.writeFails vKey then ⟨some "write failed", env1⟩
        else ⟨none, { env1 with remote := insertKey env1.remote vKey (.vol volume) }⟩

/-! RemoveVolume (blockstores.go lines 209-238). -/

def RemoveVolume (orc : BsOracle) (env : BsEnv) (root id volumeId : String) : OpOut :=
  let configFile := getConfigFilename root id
  match lookupKey env.locals configFile with
  | none => ⟨some "failed to load config", env⟩
  | some b =>
    if (lookupKey b.Volumes volumeId).isNone then
      ⟨some ("volume " ++ volumeId ++ " does not exist in blockstore " ++ id), env⟩
    else if ¬ env.kinds.contains b.Kind then
      ⟨some ("Driver " ++ b.Kind ++ " is not supported!"), env⟩
    else
      let volumeDir := getVolumePath volumeId
      if orc.removeFails volumeDir then ⟨some "remove failed", env⟩
      else
        let b' : BlockStore := { b with Volumes := eraseKey b.Volumes volumeId }
        ⟨none, { env with remote := removeAllR env.remote volumeDir,
                          locals := insertKey env.locals configFile b' }⟩

/-! BackupSnapshot (blockstores.go lines 261-367). -/

/-- Events recorded while BackupSnapshot runs, in execution order. -/
inductive BsEvent where
  | readSnapE (offset : Nat)
  | hashE (offset : Nat)
  | mkdirE (path : String)
  | writeE (key : String)
  | removeE (path : String)
  | saveLocalE (file : String)
  deriving DecidableEq, Repr

/-- State threaded through the dirty-block loop (step 6): the remote store,
the delta manifest built so far, and the event trace. -/
structure LoopSt where
  remote : List (String × RObj)
  blocks : List BlockMapping
  trace : List BsEvent
  deriving Repr

/-- One iteration of the inner loop of step 6: read the block, hash it,
dedup-check, and upload.  On a dedup hit (`FileSize ≥ 0`) the Go code
`continue`s, which also skips the append to `snapshotDeltaMap.Blocks`. -/
def processBlock (sha512 : List Nat → List Nat) (se : SnapEnv) (orc : BsOracle)
    (volumeId : String) (st : LoopSt) (offset : Nat) : Option String × LoopSt :=
  let st1 : LoopSt := { st with trace := st.trace ++ [.readSnapE offset] }
  if se.readSnapFails offset then (some "read snapshot failed", st1)
  else
    let block := se.readSnap offset
    let checksum := blockChecksum (sha512 block)
    let st2 : LoopSt := { st1 with trace := st1.trace ++ [.hashE offset] }
    match getBlockPathAndFileName volumeId checksum with
    | none => (some "slice bounds out of range", st2)
    | some (path, fileName) =>
      if rFileSize st2.remote path fileName ≥ 0 then (none, st2)
      else
        let st3 : LoopSt := { st2 with trace := st2.trace ++ [.mkdirE path] }
        if orc.mkdirFails path then (some "mkdir failed", st3)
        else
          let key := fileKey path fileName
          let st4 : LoopSt := { st3 with trace := st3.trace ++ [.writeE key] }
          if orc.writeFails key then (some "write failed", st4)
          else
            (none, { st4 with remote := insertKey st4.remote key (.blk block),
                              blocks := st4.blocks ++ [⟨offset, checksum⟩] })

/-- Blocks `i, i+1, ..., i+count-1` of one dirty extent starting at
`extOffset`; offsets are uint64, hence the reduction modulo 2^64. -/
def runBlocks (sha512 : List Nat → List Nat) (se : SnapEnv) (orc : BsOracle)
    (volumeId : String) (blockSize extOffset : Nat) :
    Nat → Nat → LoopSt → Option String × LoopSt
  | _, 0, st => (none, st)
  | i, Nat.succ c, st =>
    let offset := (extOffset + i * blockSize) % (2 ^ 64)
    match processBlock sha512 se orc volumeId st offset with
    | (some e, st') => (some e, st')
    | (none, st') => runBlocks sha512 se orc volumeId blockSize extOffset (i + 1) c st'

/-- The outer loop of step 6 over the dirty extents; each extent covers
`d.Size / blockSize` blocks. -/
def runExtents (sha512 : List Nat → List Nat) (se : SnapEnv) (orc : BsOracle)
    (volumeId : String) (blockSize : Nat) :
    List Mapping → LoopSt → Option String × LoopSt
  | [], st => (none, st)
  | d :: rest, st =>
    match runBlocks sha512 se orc volumeId blockSize d.Offset 0 (d.Size / blockSize) st with
    | (some e, st') => (some e, st')
    | (none, st') => runExtents sha512 se orc volumeId blockSize rest st'

/-- Result of BackupSnapshot: error (if any), final environment, trace. -/
structure BackupOut where
  err : Option String
  env : BsEnv
  trace : List BsEvent

/-- BackupSnapshot.  Note on the final lines of the source: `volume` is a
copy of the map value `b.Volumes[volumeId]`, so the assignment
`volume.LastSnapshotId = snapshotId` does not reach `b`, and SaveConfig
persists `b` exactly as loaded. -/
def BackupSnapshot (sha512 : List Nat → List Nat) (se : SnapEnv) (orc : BsOracle)
    (env : BsEnv) (root snapshotId volumeId blockstoreId : String) : BackupOut :=
  let configFile := getConfigFilename root blockstoreId
  match lookupKey env.locals configFile with
  | none => ⟨some "failed to load config", env, []⟩
  | some b =>
    if ¬ env.kinds.contains b.Kind then
      ⟨some ("Driver " ++ b.Kind ++ " is not supported!"), env, []⟩
    else
      match lookupKey b.Volumes volumeId with
      | none =>
        ⟨some ("cannot find volume " ++ volumeId ++ " in blockstore " ++ blockstoreId),
         env, []⟩
      | some volume =>
        let lastCheck : Except String SnapshotMap :=
          if volume.LastSnapshotId = "" then .ok ⟨"", []⟩
          else
            let p := getSnapshotsPath volumeId
            let fn := getSnapshotConfigName volume.LastSnapshotId
            if rFileSize env.remote p fn < 0 then
              .error ("Last snapshot " ++ volume.LastSnapshotId ++
                      " is not in the blockstore")
            else
              match rLookup env.remote (fileKey p fn) with
              | some (.snap m) => .ok m
              | _ => .error "failed to unmarshal last snapshot"
        match lastCheck with
        | .error e => ⟨some e, env, []⟩
        | .ok lastSnapshotMap =>
          if se.compareFails then ⟨some "compare snapshot failed", env, []⟩
          else if se.delta.BlockSize ≠ b.BlockSize then
            ⟨some "Currently does not support different block sizes between blockstore and driver",
             env, []⟩
          else
            match runExtents sha512 se orc volumeId se.delta.BlockSize
                se.delta.Mappings ⟨env.remote, [], []⟩ with
            | (some e, st) => ⟨some e, { env with remote := st.remote }, st.trace⟩
            | (none, st) =>
              let snapshotMap := mergeSnapshotMap snapshotId ⟨"", st.blocks⟩ lastSnapshotMap
              let p := getSnapshotsPath volumeId
              let fn := getSnapshotConfigName snapshotId
              let mkey := fileKey p fn
              let removed : Option (List (String × RObj) × List BsEvent) :=
                if (rLookup st.remote mkey).isSome then
                  if orc.removeFails mkey then none
                  else some (removeAllR st.remote mkey, st.trace ++ [.removeE mkey])
                else some (st.remote, st.trace)
              match removed with
              | none =>
                ⟨some "remove failed", { env with remote := st.remote },
                 st.trace ++ [.removeE mkey]⟩
              | some (remote1, trace1) =>
                if orc.writeFails mkey then
                  ⟨some "write failed", { env with remote := remote1 },
                   trace1 ++ [.writeE mkey]⟩
                else
                  ⟨none,
                   { env with remote := insertKey remote1 mkey (.snap snapshotMap),
                              locals := insertKey env.locals configFile b },
                   trace1 ++ [.writeE mkey, .saveLocalE configFile]⟩

/-! Concrete fixtures used by witnesses and counterexamples. -/

/-- A stand-in 64-byte hash function for concrete runs. -/
def sampleHash : List Nat → List Nat := fun _ => List.range 64

def mergeS6Delta : SnapshotMap := { Id := "", Blocks := [⟨6291456, "d"⟩] }

def mergeS6Last : SnapshotMap :=
  { Id := "l", Blocks := [⟨0, "a"⟩, ⟨2097152, "b"⟩, ⟨4194304, "c"⟩] }

def mergeS2Delta : SnapshotMap := { Id := "", Blocks := [⟨2097152, "x"⟩] }

def mergeS2Last : SnapshotMap :=
  { Id := "l", Blocks := [⟨0, "z"⟩, ⟨2097152, "z"⟩, ⟨4194304, "z"⟩] }

/-- Constant hash standing in for sha512 on identical blocks. -/
def zeroHash : List Nat → List Nat := fun _ => List.replicate 64 0

/-- First backup of a 12-byte volume with block size 4: one dirty extent
covering three identical blocks (scenario S1 scaled down). -/
def c2snapEnv : SnapEnv :=
  { delta := { BlockSize := 4, Mappings := [⟨0, 12⟩] },
    compareFails := false,
    readSnapFails := fun _ => false,
    readSnap := fun _ => [0, 0, 0, 0] }

def c2store : BlockStore :=
  { Kind := "k", BlockSize := 4,
    Volumes := [("v", { Size := 12, Base := "", LastSnapshotId := "" })] }

def c2env : BsEnv := { kinds := ["k"], remote := [], locals := [("r/bs.cfg", c2store)] }

def c3vol : Volume := { Size := 7, Base := "", LastSnapshotId := "" }

def c3store : BlockStore := { Kind := "k", BlockSize := 2097152, Volumes := [] }

/-- Environment whose remote prefix already holds a volume.cfg for "v". -/
def c3env : BsEnv :=
  { kinds := ["k"],
    remote := [(fileKey (getVolumePath "v") VOLUME_CONFIG_FILE, RObj.vol c3vol)],
    locals := [(getConfigFilename "r" "bs", c3store)] }

def c7vol : Volume := { Size := 12, Base := "", LastSnapshotId := "prev" }

def c7store : BlockStore :=
  { Kind := "k", BlockSize := 4, Volumes := [("v", c7vol)] }

/-- Environment whose volume points at a last snapshot that the remote no
longer holds. -/
def c7env : BsEnv :=
  { kinds := ["k"], remote := [], locals := [(getConfigFilename "r" "bs", c7store)] }

/-! ## Theorems -/

/-! Defining equations of `mergeBlocks`: exactly the Go loop body of
mergeSnapshotMap (lines 378-393). -/

theorem mergeBlocks_nil_left (ls : List BlockMapping) : mergeBlocks [] ls = [] := rfl

theorem mergeBlocks_nil_right (dB : BlockMapping) (ds : List BlockMapping) :
    mergeBlocks (dB :: ds) [] = [] := rfl

theorem mergeBlocks_cons_cons (dB lB : BlockMapping) (ds ls : List BlockMapping) :
    mergeBlocks (dB :: ds) (lB :: ls) =
      if dB.Offset = lB.Offset then dB :: mergeBlocks ds ls
      else if dB.Offset < lB.Offset then dB :: mergeBlocks ds (lB :: ls)
      else lB :: mergeBlocks (dB :: ds) ls := rfl

/-! Association-list lemmas. -/

theorem lookupKey_insertKey_self {β : Type} (m : List (String × β)) (k : String) (v : β) :
    lookupKey (insertKey m k v) k = some v := by
  induction m with
  | nil => simp [insertKey, lookupKey]
  | cons kv rest ih =>
    rcases kv with ⟨k0, v0⟩
    by_cases hk : k0 = k <;> simp [insertKey, lookupKey, hk, ih]

theorem lookupKey_insertKey_ne {β : Type} (m : List (String × β)) (k k' : String) (v : β)
    (h : k' ≠ k) : lookupKey (insertKey m k v) k' = lookupKey m k' := by
  have hk2 : k ≠ k' := fun hh => h hh.symm
  induction m with
  | nil => simp [insertKey, lookupKey, hk2]
  | cons kv rest ih =>
    rcases kv with ⟨k0, v0⟩
    by_cases hk : k0 = k
    · subst hk
      simp [insertKey, lookupKey, hk2]
    · simp [insertKey, lookupKey, hk, ih]

/-! Merge correctness lemmas. -/

theorem mem_mergeBlocks {e : BlockMapping} :
    ∀ {ds ls : List BlockMapping}, e ∈ mergeBlocks ds ls → e ∈ ds ∨ e ∈ ls := by
  intro ds
  induction ds with
  | nil => intro ls h; simp [mergeBlocks_nil_left] at h
  | cons dB ds ih =>
    intro ls
    induction ls with
    | nil => intro h; simp [mergeBlocks_nil_right] at h
    | cons lB ls ihl =>
      rw [mergeBlocks_cons_cons]
      split
      · intro h
        rcases List.mem_cons.1 h with h | h
        · exact Or.inl (h ▸ List.mem_cons_self dB ds)
        · rcases ih h with h | h
          · exact Or.inl (List.mem_cons_of_mem dB h)
          · exact Or.inr (List.mem_cons_of_mem lB h)
      · split
        · intro h
          rcases List.mem_cons.1 h with h | h
          · exact Or.inl (h ▸ List.mem_cons_self dB ds)
          · rcases ih h with h | h
            · exact Or.inl (List.mem_cons_of_mem dB h)
            · exact Or.inr h
        · intro h
          rcases List.mem_cons.1 h with h | h
          · exact Or.inr (h ▸ List.mem_cons_self lB ls)
          · rcases ihl h with h | h
            · exact Or.inl h
            · exact Or.inr (List.mem_cons_of_mem lB h)

theorem asc_mergeBlocks :
    ∀ {ds ls : List BlockMapping}, ascBlocks ds → ascBlocks ls →
      ascBlocks (mergeBlocks ds ls) := by
  intro ds
  induction ds with
  | nil => intro ls _ _; rw [mergeBlocks_nil_left]; exact List.Pairwise.nil
  | cons dB ds ih =>
    intro ls hd hl
    induction ls with
    | nil => rw [mergeBlocks_nil_right]; exact List.Pairwise.nil
    | cons lB ls ihl =>
      rcases List.pairwise_cons.1 hd with ⟨hdHead, hdTail⟩
      rcases List.pairwise_cons.1 hl with ⟨hlHead, hlTail⟩
      rw [mergeBlocks_cons_cons]
      split
      · rename_i heq
        refine List.pairwise_cons.2 ⟨?_, ih hdTail hlTail⟩
        intro e he
        rcases mem_mergeBlocks he with h | h
        · exact hdHead e h
        · exact heq ▸ hlHead e h
      · split
        · rename_i hne hlt
          refine List.pairwise_cons.2 ⟨?_, ih hdTail hl⟩
          intro e he
          rcases mem_mergeBlocks he with h | h
          · exact hdHead e h
          · rcases List.mem_cons.1 h with h | h
            · exact h ▸ hlt
            · exact Nat.lt_trans hlt (hlHead e h)
        · rename_i hne hnlt
          have hgt : lB.Offset < dB.Offset :=
            Nat.lt_of_le_of_ne (Nat.le_of_not_lt hnlt) (fun h => hne h.symm)
          refine List.pairwise_cons.2 ⟨?_, ihl hlTail⟩
          intro e he
          rcases mem_mergeBlocks he with h | h
          · rcases List.mem_cons.1 h with h | h
            · exact h ▸ hgt
            · exact Nat.lt_trans hgt (hdHead e h)
          · exact hlHead e h

theorem shadow_mergeBlocks {bd bl : BlockMapping} :
    ∀ {ds ls : List BlockMapping}, ascBlocks ds → ascBlocks ls →
      bd ∈ ds → bl ∈ ls → bd.Offset = bl.Offset → bd ∈ mergeBlocks ds ls := by
  intro ds
  induction ds with
  | nil => intro ls _ _ h; simp at h
  | cons dB ds ih =>
    intro ls hd hl hbd hbl hoff
    induction ls with
    | nil => simp at hbl
    | cons lB ls ihl =>
      rcases List.pairwise_cons.1 hd with ⟨hdHead, hdTail⟩
      rcases List.pairwise_cons.1 hl with ⟨hlHead, hlTail⟩
      rw [mergeBlocks_cons_cons]
      split
      · rename_i heq
        rcases List.mem_cons.1 hbd with h | h
        · exact h ▸ List.mem_cons_self dB _
        · rcases List.mem_cons.1 hbl with h' | h'
          · exfalso
            have hlt2 : dB.Offset < bd.Offset := hdHead bd h
            rw [h'] at hoff
            omega
          · exact List.mem_cons_of_mem dB (ih hdTail hlTail h h' hoff)
      · rename_i hne
        split
        · rename_i hlt
          rcases List.mem_cons.1 hbd with h | h
          · exact h ▸ List.mem_cons_self dB _
          · exact List.mem_cons_of_mem dB (ih hdTail hl h hbl hoff)
        · rename_i hnlt
          have hgt : lB.Offset < dB.Offset :=
            Nat.lt_of_le_of_ne (Nat.le_of_not_lt hnlt) (fun h => hne h.symm)
          rcases List.mem_cons.1 hbl with h' | h'
          · exfalso
            rcases List.mem_cons.1 hbd with h | h
            · rw [h, h'] at hoff; omega
            · have hlt2 : dB.Offset < bd.Offset := hdHead bd h
              rw [h'] at hoff; omega
          · exact List.mem_cons_of_mem lB (ihl hlTail h')

theorem asc_offset_unique {r : List BlockMapping} (h : ascBlocks r) :
    ∀ {a b : BlockMapping}, a ∈ r → b ∈ r → a.Offset = b.Offset → a = b := by
  induction r with
  | nil => intro a b ha; simp at ha
  | cons x rest ih =>
    rcases List.pairwise_cons.1 h with ⟨hHead, hTail⟩
    intro a b ha hb hoff
    rcases List.mem_cons.1 ha with ha | ha <;> rcases List.mem_cons.1 hb with hb | hb
    · rw [ha, hb]
    · exfalso; have hx := hHead b hb; rw [ha] at hoff; omega
    · exfalso; have hx := hHead a ha; rw [hb] at hoff; omega
    · exact ih hTail ha hb hoff

/-! Hex digest lemmas. -/

theorem hexEncodeL_length (data : List Nat) : (hexEncodeL data).length = 2 * data.length := by
  induction data with
  | nil => rfl
  | cons b rest ih => simp [hexEncodeL, ih]; omega

theorem hexEncodeL_take (data : List Nat) (n : Nat) :
    (hexEncodeL data).take (2 * n) = hexEncodeL (data.take n) := by
  induction data generalizing n with
  | nil => simp [hexEncodeL]
  | cons b rest ih =>
    cases n with
    | zero => simp [hexEncodeL]
    | succ m =>
      have h2 : 2 * (m + 1) = 2 * m + 1 + 1 := by omega
      simp only [h2, hexEncodeL, List.take_succ_cons, ih]

theorem hexDigit_mem : ∀ n < 16, hexDigit n ∈ lowerHexChars := by decide

theorem mem_hexEncodeL {c : Char} : ∀ {data : List Nat},
    c ∈ hexEncodeL data → c ∈ lowerHexChars := by
  intro data
  induction data with
  | nil => intro h; simp [hexEncodeL] at h
  | cons b rest ih =>
    intro h
    rcases List.mem_cons.1 h with h | h
    · exact h ▸ hexDigit_mem _ (by omega)
    · rcases List.mem_cons.1 h with h | h
      · exact h ▸ hexDigit_mem _ (by omega)
      · exact ih h

theorem blockChecksum_data (hash : List Nat) :
    (blockChecksum hash).data = hexEncodeL (hash.take 32) := by
  have ht := hexEncodeL_take hash 32
  norm_num at ht
  simp [blockChecksum, PRESERVED_CHECKSUM_LENGTH, ht]

theorem blockChecksum_length (hash : List Nat) (h : hash.length = 64) :
    (blockChecksum hash).length = 64 := by
  simp [blockChecksum, String.length, List.length_take, hexEncodeL_length, h,
    PRESERVED_CHECKSUM_LENGTH]

/-! Claim theorems about the digest and block path. -/

/-- C4: for every block buffer b, the digest BackupSnapshot computes
(`blockChecksum (sha512 b)` in `processBlock`) is the first 64 characters
of the lower-case hex rendering of SHA-512(b) — equivalently the hex
rendering of the first 32 hash bytes (256 bits of SHA-512 prefix), length
exactly 64, all characters lower-case hex — and the derived remote
location is path `blocks/<d[0:2]>/<d[2:4]>` under the volume directory
with file name `<d>.blk`. -/
theorem digest_and_blockpath_spec (sha512 : List Nat → List Nat) (b : List Nat)
    (volumeId : String) (h : (sha512 b).length = 64) :
    (blockChecksum (sha512 b)).data = (hexEncodeL (sha512 b)).take 64 ∧
    (blockChecksum (sha512 b)).length = 64 ∧
    (blockChecksum (sha512 b)).data = hexEncodeL ((sha512 b).take 32) ∧
    (∀ c ∈ (blockChecksum (sha512 b)).data, c ∈ lowerHexChars) ∧
    getBlockPathAndFileName volumeId (blockChecksum (sha512 b)) =
      some (getVolumePath volumeId ++ "/" ++ BLOCKS_DIRECTORY ++ "/" ++
              String.mk ((blockChecksum (sha512 b)).data.take 2) ++ "/" ++
              String.mk (((blockChecksum (sha512 b)).data.take 4).drop 2),
            blockChecksum (sha512 b) ++ ".blk") := by
  have hlen : (blockChecksum (sha512 b)).length = 64 := blockChecksum_length _ h
  refine ⟨rfl, hlen, blockChecksum_data _, ?_, ?_⟩
  · intro c hc
    have hc' : c ∈ hexEncodeL (sha512 b) := List.take_subset _ _ hc
    exact mem_hexEncodeL hc'
  · simp only [getBlockPathAndFileName, goSlice, BLOCK_SEPARATE_LAYER1,
      BLOCK_SEPARATE_LAYER2, hlen]
    norm_num

/-- Witness for C4 at a concrete 64-byte hash value. -/
theorem digest_and_blockpath_spec_witness :
    (sampleHash []).length = 64 ∧
    ((blockChecksum (sampleHash [])).data = (hexEncodeL (sampleHash [])).take 64 ∧
     (blockChecksum (sampleHash [])).length = 64 ∧
     (blockChecksum (sampleHash [])).data = hexEncodeL ((sampleHash []).take 32) ∧
     (∀ c ∈ (blockChecksum (sampleHash [])).data, c ∈ lowerHexChars) ∧
     getBlockPathAndFileName "v" (blockChecksum (sampleHash [])) =
       some (getVolumePath "v" ++ "/" ++ BLOCKS_DIRECTORY ++ "/" ++
               String.mk ((blockChecksum (sampleHash [])).data.take 2) ++ "/" ++
               String.mk (((blockChecksum (sampleHash [])).data.take 4).drop 2),
             blockChecksum (sampleHash []) ++ ".blk")) :=
  ⟨by decide, digest_and_blockpath_spec sampleHash [] "v" (by decide)⟩

/-- C10: getBlockPathAndFileName slices checksum[0:2] and checksum[2:4];
this is in bounds exactly when the checksum has length at least 4, and the
64-character digest produced in BackupSnapshot always satisfies it. -/
theorem blockpath_slicing_bounds (volumeId checksum : String)
    (sha512 : List Nat → List Nat) (b : List Nat) (h : (sha512 b).length = 64) :
    ((getBlockPathAndFileName volumeId checksum).isSome ↔ 4 ≤ checksum.length) ∧
    (getBlockPathAndFileName volumeId (blockChecksum (sha512 b))).isSome := by
  have main : ∀ c : String,
      (getBlockPathAndFileName volumeId c).isSome ↔ 4 ≤ c.length := by
    intro c
    by_cases h4 : 4 ≤ c.length
    · have h2 : 2 ≤ c.length := by omega
      simp [getBlockPathAndFileName, goSlice, BLOCK_SEPARATE_LAYER1,
        BLOCK_SEPARATE_LAYER2, h2, h4]
    · by_cases h2 : 2 ≤ c.length <;>
        simp [getBlockPathAndFileName, goSlice, BLOCK_SEPARATE_LAYER1,
          BLOCK_SEPARATE_LAYER2, h2, h4]
  refine ⟨main checksum, ?_⟩
  rw [main (blockChecksum (sha512 b)), blockChecksum_length _ h]
  omega

/-- Witness for C10: a 4-character checksum and a concrete digest. -/
theorem blockpath_slicing_bounds_witness :
    (sampleHash []).length = 64 ∧
    (((getBlockPathAndFileName "v" "abcd").isSome ↔ 4 ≤ ("abcd" : String).length) ∧
     (getBlockPathAndFileName "v" (blockChecksum (sampleHash []))).isSome) :=
  ⟨by decide, blockpath_slicing_bounds "v" "abcd" sampleHash [] (by decide)⟩

/-! Claim theorems about the merge. -/

/-- C1 (refutation of the claimed tail append): at the spec scenario S6
input, last = [(0,a), (2M,b), (4M,c)] and delta = [(6M,d)], the merge
exhausts the last side after emitting its three entries, the loop stops,
and the delta entry at offset 6291456 is dropped: no result entry covers
that offset. -/
theorem mergeSnapshotMap_drops_tail :
    mergeSnapshotMap "s" mergeS6Delta mergeS6Last =
      { Id := "s", Blocks := [⟨0, "a"⟩, ⟨2097152, "b"⟩, ⟨4194304, "c"⟩] } ∧
    (⟨6291456, "d"⟩ : BlockMapping) ∈ mergeS6Delta.Blocks ∧
    (∀ e ∈ (mergeSnapshotMap "s" mergeS6Delta mergeS6Last).Blocks,
      e.Offset ≠ 6291456) := by decide

/-- C6: for ascending inputs, the merge result is ascending by offset with
no duplicate offsets, and for every offset present in both inputs the delta
entry is emitted and is the unique result entry at that offset. -/
theorem mergeSnapshotMap_shadow_and_sorted (id : String) (deltaMap lastMap : SnapshotMap)
    (hd : ascBlocks deltaMap.Blocks) (hl : ascBlocks lastMap.Blocks) :
    ascBlocks (mergeSnapshotMap id deltaMap lastMap).Blocks ∧
    ∀ bd ∈ deltaMap.Blocks, ∀ bl ∈ lastMap.Blocks, bd.Offset = bl.Offset →
      bd ∈ (mergeSnapshotMap id deltaMap lastMap).Blocks ∧
      ∀ e ∈ (mergeSnapshotMap id deltaMap lastMap).Blocks,
        e.Offset = bd.Offset → e = bd := by
  unfold mergeSnapshotMap
  by_cases h0 : lastMap.Blocks.length = 0
  · simp only [h0, if_pos]
    refine ⟨hd, ?_⟩
    intro bd _ bl hbl
    rw [List.length_eq_zero] at h0
    rw [h0] at hbl
    simp at hbl
  · simp only [h0, if_false]
    refine ⟨asc_mergeBlocks hd hl, ?_⟩
    intro bd hbd bl hbl hoff
    have hmem := shadow_mergeBlocks hd hl hbd hbl hoff
    exact ⟨hmem, fun e he hoffe => asc_offset_unique (asc_mergeBlocks hd hl) he hmem hoffe⟩

/-- Witness for C6 at the spec scenario S2 input. -/
theorem mergeSnapshotMap_shadow_and_sorted_witness :
    ascBlocks mergeS2Delta.Blocks ∧ ascBlocks mergeS2Last.Blocks ∧
    (ascBlocks (mergeSnapshotMap "s2" mergeS2Delta mergeS2Last).Blocks ∧
     ∀ bd ∈ mergeS2Delta.Blocks, ∀ bl ∈ mergeS2Last.Blocks, bd.Offset = bl.Offset →
       bd ∈ (mergeSnapshotMap "s2" mergeS2Delta mergeS2Last).Blocks ∧
       ∀ e ∈ (mergeSnapshotMap "s2" mergeS2Delta mergeS2Last).Blocks,
         e.Offset = bd.Offset → e = bd) :=
  ⟨by decide, by decide,
   mergeSnapshotMap_shadow_and_sorted "s2" mergeS2Delta mergeS2Last (by decide) (by decide)⟩

/-! Claim theorem for the driver registry. -/

/-- C9: RegisterDriver fails when the kind is already present, leaving the
initializer map unchanged; otherwise it inserts the constructor for that
kind (touching no other kind) and returns success. -/
theorem registerDriver_spec {α : Type} (inits : List (String × α)) (kind : String) (f : α) :
    ((lookupKey inits kind).isSome →
       RegisterDriver inits kind f =
         (some (kind ++ " has already been registered"), inits)) ∧
    (lookupKey inits kind = none →
       (RegisterDriver inits kind f).1 = none ∧
       lookupKey (RegisterDriver inits kind f).2 kind = some f ∧
       ∀ k', k' ≠ kind →
         lookupKey (RegisterDriver inits kind f).2 k' = lookupKey inits k') := by
  constructor
  · intro h
    simp [RegisterDriver, h]
  · intro h
    simp only [RegisterDriver, h, Option.isSome_none, Bool.false_eq_true, if_false]
    refine ⟨by simp, lookupKey_insertKey_self _ _ _,
            fun k' hk => lookupKey_insertKey_ne _ _ _ _ hk⟩

/-- Witness for C9 on a one-entry map over α = Nat. -/
theorem registerDriver_spec_witness :
    ((lookupKey [("s3", 1)] "s3").isSome →
       RegisterDriver [("s3", 1)] "s3" 2 =
         (some ("s3" ++ " has already been registered"), [("s3", 1)])) ∧
    (lookupKey [("s3", 1)] "s3" = none →
       (RegisterDriver [("s3", 1)] "s3" 2).1 = none ∧
       lookupKey (RegisterDriver [("s3", 1)] "s3" 2).2 "s3" = some 2 ∧
       ∀ k', k' ≠ "s3" →
         lookupKey (RegisterDriver [("s3", 1)] "s3" 2).2 k' = lookupKey [("s3", 1)] k') :=
  registerDriver_spec [("s3", 1)] "s3" 2

/-! Claim theorems for AddVolume. -/

/-- C3 (refutation of "no mutation"): with the remote volume.cfg already
present, AddVolume returns the already-exists error, but by then the local
blockstore record has been persisted with the new Volume entry: the local
state differs from the initial one. -/
theorem addVolume_remote_collision_mutates :
    (AddVolume noFail c3env "r" "bs" "v" "" 1024).err =
      some "volume config file already existed in blockstore" ∧
    lookupKey (AddVolume noFail c3env "r" "bs" "v" "" 1024).env.locals
        (getConfigFilename "r" "bs") =
      some { Kind := "k", BlockSize := 2097152,
             Volumes := [("v", { Size := 1024, Base := "", LastSnapshotId := "" })] } ∧
    lookupKey (AddVolume noFail c3env "r" "bs" "v" "" 1024).env.locals
        (getConfigFilename "r" "bs") ≠
      lookupKey c3env.locals (getConfigFilename "r" "bs") := by decide

/-- C3 (amended): when the remote volume.cfg already exists and the steps
before the check succeed, AddVolume fails with the already-exists error and
writes nothing further remotely, but the local blockstore record has
already been persisted with the new Volume entry. -/
theorem addVolume_remote_collision (orc : BsOracle) (env : BsEnv)
    (root id volumeId base : String) (size : Nat) (b : BlockStore)
    (h1 : lookupKey env.locals (getConfigFilename root id) = some b)
    (h2 : lookupKey b.Volumes volumeId = none)
    (h3 : env.kinds.contains b.Kind = true)
    (h4 : orc.mkdirFails (getVolumePath volumeId) = false)
    (h5 : (rLookup env.remote (fileKey (getVolumePath volumeId) VOLUME_CONFIG_FILE)).isSome) :
    (AddVolume orc env root id volumeId base size).err =
      some "volume config file already existed in blockstore" ∧
    (AddVolume orc env root id volumeId base size).env.remote = env.remote ∧
    (AddVolume orc env root id volumeId base size).env.locals =
      insertKey env.locals (getConfigFilename root id)
        { b with Volumes := insertKey b.Volumes volumeId ⟨size, base, ""⟩ } := by
  have h3' : b.Kind ∈ env.kinds := by simpa using h3
  simp [AddVolume, h1, h2, h3', h4, h5]

/-- Witness for the amended C3 at the concrete collision environment. -/
theorem addVolume_remote_collision_witness :
    lookupKey c3env.locals (getConfigFilename "r" "bs") = some c3store ∧
    lookupKey c3store.Volumes "v" = none ∧
    c3env.kinds.contains c3store.Kind = true ∧
    noFail.mkdirFails (getVolumePath "v") = false ∧
    (rLookup c3env.remote (fileKey (getVolumePath "v") VOLUME_CONFIG_FILE)).isSome ∧
    ((AddVolume noFail c3env "r" "bs" "v" "b0" 7).err =
       some "volume config file already existed in blockstore" ∧
     (AddVolume noFail c3env "r" "bs" "v" "b0" 7).env.remote = c3env.remote ∧
     (AddVolume noFail c3env "r" "bs" "v" "b0" 7).env.locals =
       insertKey c3env.locals (getConfigFilename "r" "bs")
         { c3store with Volumes := insertKey c3store.Volumes "v" ⟨7, "b0", ""⟩ }) :=
  ⟨by decide, by decide, by decide, by decide, by decide,
   addVolume_remote_collision noFail c3env "r" "bs" "v" "b0" 7 c3store
     (by decide) (by decide) (by decide) (by decide) (by decide)⟩

/-! Claim theorems for BackupSnapshot. -/

/-- C2 (refutation of "appended regardless of dedup"): first backup of
three identical blocks (block size 4, extent of size 12, constant
contents).  The first block is uploaded and appended to the delta map, but
the second and third are dedup hits whose `continue` also skips the
append; the manifest written remotely has one entry, not three. -/
theorem backup_dedup_skips_append :
    (BackupSnapshot zeroHash c2snapEnv noFail c2env "r" "s1" "v" "bs").err = none ∧
    rLookup (BackupSnapshot zeroHash c2snapEnv noFail c2env "r" "s1" "v" "bs").env.remote
        (fileKey (getSnapshotsPath "v") (getSnapshotConfigName "s1")) =
      some (.snap { Id := "s1",
                    Blocks := [⟨0, blockChecksum (zeroHash [0, 0, 0, 0])⟩] }) ∧
    ({ Id := "s1", Blocks := [⟨0, blockChecksum (zeroHash [0, 0, 0, 0])⟩]
       : SnapshotMap }).Blocks.length = 1 := by decide

/-- C7: when the volume's last_snapshot_id is non-empty and the remote
manifest for it is absent, BackupSnapshot fails with the not-found error
before any block is read, hashed or uploaded (the event trace is empty)
and returns the environment unchanged, so the persisted last_snapshot_id
is untouched. -/
theorem backup_missing_last_manifest (sha512 : List Nat → List Nat) (se : SnapEnv)
    (orc : BsOracle) (env : BsEnv) (root snapshotId volumeId blockstoreId : String)
    (b : BlockStore) (volume : Volume)
    (h1 : lookupKey env.locals (getConfigFilename root blockstoreId) = some b)
    (h2 : env.kinds.contains b.Kind = true)
    (h3 : lookupKey b.Volumes volumeId = some volume)
    (h4 : volume.LastSnapshotId ≠ "")
    (h5 : rLookup env.remote (fileKey (getSnapshotsPath volumeId)
            (getSnapshotConfigName volume.LastSnapshotId)) = none) :
    BackupSnapshot sha512 se orc env root snapshotId volumeId blockstoreId =
      ⟨some ("Last snapshot " ++ volume.LastSnapshotId ++ " is not in the blockstore"),
       env, []⟩ := by
  have hfs : rFileSize env.remote (getSnapshotsPath volumeId)
      (getSnapshotConfigName volume.LastSnapshotId) = -1 := by
    simp [rFileSize, h5]
  have h2' : b.Kind ∈ env.kinds := by simpa using h2
  simp [BackupSnapshot, h1, h2', h3, h4, hfs]

/-- Witness for C7 at the broken-chain environment. -/
theorem backup_missing_last_manifest_witness :
    lookupKey c7env.locals (getConfigFilename "r" "bs") = some c7store ∧
    c7env.kinds.contains c7store.Kind = true ∧
    lookupKey c7store.Volumes "v" = some c7vol ∧
    c7vol.LastSnapshotId ≠ "" ∧
    rLookup c7env.remote (fileKey (getSnapshotsPath "v")
        (getSnapshotConfigName c7vol.LastSnapshotId)) = none ∧
    BackupSnapshot zeroHash c2snapEnv noFail c7env "r" "s2" "v" "bs" =
      ⟨some ("Last snapshot " ++ c7vol.LastSnapshotId ++ " is not in the blockstore"),
       c7env, []⟩ :=
  ⟨by decide, by decide, by decide, by decide, by decide,
   backup_missing_last_manifest zeroHash c2snapEnv noFail c7env "r" "s2" "v" "bs"
     c7store c7vol (by decide) (by decide) (by decide) (by decide) (by decide)⟩

/-! Trace lemmas: the dirty-block loop never records a local save. -/

theorem processBlock_no_save (sha512 : List Nat → List Nat) (se : SnapEnv) (orc : BsOracle)
    (volumeId : String) (st : LoopSt) (offset : Nat) (f : String)
    (h : BsEvent.saveLocalE f ∉ st.trace) :
    BsEvent.saveLocalE f ∉ (processBlock sha512 se orc volumeId st offset).2.trace := by
  simp only [processBlock]
  repeat' split
  all_goals simp_all [List.mem_append]

theorem runBlocks_no_save (sha512 : List Nat → List Nat) (se : SnapEnv) (orc : BsOracle)
    (volumeId : String) (blockSize extOffset : Nat) (f : String) :
    ∀ (count i : Nat) (st : LoopSt), BsEvent.saveLocalE f ∉ st.trace →
      BsEvent.saveLocalE f ∉
        (runBlocks sha512 se orc volumeId blockSize extOffset i count st).2.trace := by
  intro count
  induction count with
  | zero => intro i st h; simpa [runBlocks] using h
  | succ c ih =>
    intro i st h
    have hpb := processBlock_no_save sha512 se orc volumeId st
      ((extOffset + i * blockSize) % 2 ^ 64) f h
    simp only [runBlocks]
    rcases heq : processBlock sha512 se orc volumeId st
        ((extOffset + i * blockSize) % 2 ^ 64) with ⟨e, st'⟩
    rw [heq] at hpb
    cases e with
    | none => simpa using ih (i + 1) st' hpb
    | some msg => simpa using hpb

theorem runExtents_no_save (sha512 : List Nat → List Nat) (se : SnapEnv) (orc : BsOracle)
    (volumeId : String) (blockSize : Nat) (f : String) :
    ∀ (ms : List Mapping) (st : LoopSt), BsEvent.saveLocalE f ∉ st.trace →
      BsEvent.saveLocalE f ∉
        (runExtents sha512 se orc volumeId blockSize ms st).2.trace := by
  intro ms
  induction ms with
  | nil => intro st h; simpa [runExtents] using h
  | cons d rest ih =>
    intro st h
    have hrb := runBlocks_no_save sha512 se orc volumeId blockSize d.Offset f
      (d.Size / blockSize) 0 st h
    simp only [runExtents]
    rcases heq : runBlocks sha512 se orc volumeId blockSize d.Offset 0
        (d.Size / blockSize) st with ⟨e, st'⟩
    rw [heq] at hrb
    cases e with
    | none => simpa using ih st' hrb
    | some msg => simpa using hrb

/-- Full case analysis of one BackupSnapshot run: either it returns an
error, has not touched the local config files and recorded no local save,
or it succeeds, the re-saved record is exactly the loaded one, and the
trace ends with the manifest write immediately followed by the local
save. -/
theorem BackupSnapshot_cases (sha512 : List Nat → List Nat) (se : SnapEnv) (orc : BsOracle)
    (env : BsEnv) (root snapshotId volumeId blockstoreId : String) :
    ((BackupSnapshot sha512 se orc env root snapshotId volumeId blockstoreId).err ≠ none ∧
     (BackupSnapshot sha512 se orc env root snapshotId volumeId blockstoreId).env.locals =
       env.locals ∧
     ∀ file, BsEvent.saveLocalE file ∉
       (BackupSnapshot sha512 se orc env root snapshotId volumeId blockstoreId).trace) ∨
    ((BackupSnapshot sha512 se orc env root snapshotId volumeId blockstoreId).err = none ∧
     (∃ b, lookupKey env.locals (getConfigFilename root blockstoreId) = some b ∧
        (BackupSnapshot sha512 se orc env root snapshotId volumeId blockstoreId).env.locals =
          insertKey env.locals (getConfigFilename root blockstoreId) b) ∧
     (∃ m, rLookup
        (BackupSnapshot sha512 se orc env root snapshotId volumeId blockstoreId).env.remote
        (fileKey (getSnapshotsPath volumeId) (getSnapshotConfigName snapshotId)) =
          some (RObj.snap m)) ∧
     ∃ pre, (BackupSnapshot sha512 se orc env root snapshotId volumeId blockstoreId).trace =
       pre ++ [BsEvent.writeE (fileKey (getSnapshotsPath volumeId)
                 (getSnapshotConfigName snapshotId)),
               BsEvent.saveLocalE (getConfigFilename root blockstoreId)]) := by
  simp only [BackupSnapshot]
  split
  · exact Or.inl ⟨by simp, rfl, by simp⟩
  · rename_i b heq
    split
    · exact Or.inl ⟨by simp, rfl, by simp⟩
    · split
      · exact Or.inl ⟨by simp, rfl, by simp⟩
      · rename_i volume hvol
        split
        · exact Or.inl ⟨by simp, rfl, by simp⟩
        · rename_i lastMap hlast
          split
          · exact Or.inl ⟨by simp, rfl, by simp⟩
          · split
            · exact Or.inl ⟨by simp, rfl, by simp⟩
            · split
              · rename_i e st hrun
                refine Or.inl ⟨by simp, rfl, fun file => ?_⟩
                have h0 := runExtents_no_save sha512 se orc volumeId se.delta.BlockSize
                  file se.delta.Mappings ⟨env.remote, [], []⟩ (by simp)
                rw [hrun] at h0
                simpa using h0
              · rename_i st hrun
                have hst : ∀ file, BsEvent.saveLocalE file ∉ st.trace := by
                  intro file
                  have h0 := runExtents_no_save sha512 se orc volumeId se.delta.BlockSize
                    file se.delta.Mappings ⟨env.remote, [], []⟩ (by simp)
                  rw [hrun] at h0
                  simpa using h0
                split
                · refine Or.inl ⟨by simp, rfl, fun file => ?_⟩
                  simp [List.mem_append, hst file]
                · rename_i remote1 trace1 hrem
                  have htr1 : ∀ file, BsEvent.saveLocalE file ∉ trace1 := by
                    intro file
                    split at hrem
                    · split at hrem
                      · simp at hrem
                      · rw [Option.some.injEq, Prod.mk.injEq] at hrem
                        rw [← hrem.2]
                        simp [List.mem_append, hst file]
                    · rw [Option.some.injEq, Prod.mk.injEq] at hrem
                      rw [← hrem.2]
                      exact hst file
                  split
                  · refine Or.inl ⟨by simp, rfl, fun file => ?_⟩
                    simp [List.mem_append, htr1 file]
                  · exact Or.inr ⟨rfl, ⟨b, heq, rfl⟩,
                      ⟨_, lookupKey_insertKey_self _ _ _⟩, ⟨trace1, rfl⟩⟩

/-- C5: the persisted record is never saved before the new manifest is
successfully written: every error return leaves the local config files
(hence the persisted last_snapshot_id) unchanged with no local-save event
in the trace, and a successful run records the local save immediately
after the manifest write, with the manifest present remotely. -/
theorem backup_commit_after_manifest (sha512 : List Nat → List Nat) (se : SnapEnv)
    (orc : BsOracle) (env : BsEnv) (root snapshotId volumeId blockstoreId : String) :
    (∀ e, (BackupSnapshot sha512 se orc env root snapshotId volumeId blockstoreId).err =
        some e →
      (BackupSnapshot sha512 se orc env root snapshotId volumeId blockstoreId).env.locals =
        env.locals ∧
      ∀ file, BsEvent.saveLocalE file ∉
        (BackupSnapshot sha512 se orc env root snapshotId volumeId blockstoreId).trace) ∧
    ((BackupSnapshot sha512 se orc env root snapshotId volumeId blockstoreId).err = none →
      (∃ m, rLookup
        (BackupSnapshot sha512 se orc env root snapshotId volumeId blockstoreId).env.remote
        (fileKey (getSnapshotsPath volumeId) (getSnapshotConfigName snapshotId)) =
          some (RObj.snap m)) ∧
      ∃ pre, (BackupSnapshot sha512 se orc env root snapshotId volumeId blockstoreId).trace =
        pre ++ [BsEvent.writeE (fileKey (getSnapshotsPath volumeId)
                  (getSnapshotConfigName snapshotId)),
                BsEvent.saveLocalE (getConfigFilename root blockstoreId)]) := by
  rcases BackupSnapshot_cases sha512 se orc env root snapshotId volumeId blockstoreId with
    ⟨hne, hloc, htr⟩ | ⟨hnone, _, hman, htr⟩
  · exact ⟨fun e _ => ⟨hloc, htr⟩, fun hh => absurd hh hne⟩
  · refine ⟨fun e he => ?_, fun _ => ⟨hman, htr⟩⟩
    rw [hnone] at he
    exact Option.noConfusion he

/-- Witness for C5 at the concrete first-backup run. -/
theorem backup_commit_after_manifest_witness :
    (∀ e, (BackupSnapshot zeroHash c2snapEnv noFail c2env "r" "s1" "v" "bs").err = some e →
      (BackupSnapshot zeroHash c2snapEnv noFail c2env "r" "s1" "v" "bs").env.locals =
        c2env.locals ∧
      ∀ file, BsEvent.saveLocalE file ∉
        (BackupSnapshot zeroHash c2snapEnv noFail c2env "r" "s1" "v" "bs").trace) ∧
    ((BackupSnapshot zeroHash c2snapEnv noFail c2env "r" "s1" "v" "bs").err = none →
      (∃ m, rLookup
        (BackupSnapshot zeroHash c2snapEnv noFail c2env "r" "s1" "v" "bs").env.remote
        (fileKey (getSnapshotsPath "v") (getSnapshotConfigName "s1")) =
          some (RObj.snap m)) ∧
      ∃ pre, (BackupSnapshot zeroHash c2snapEnv noFail c2env "r" "s1" "v" "bs").trace =
        pre ++ [BsEvent.writeE (fileKey (getSnapshotsPath "v") (getSnapshotConfigName "s1")),
                BsEvent.saveLocalE (getConfigFilename "r" "bs")]) :=
  backup_commit_after_manifest zeroHash c2snapEnv noFail c2env "r" "s1" "v" "bs"

/-! Locals characterization of the volume registry operations. -/

theorem AddVolume_locals (orc : BsOracle) (env : BsEnv) (root id volumeId base : String)
    (size : Nat) :
    (AddVolume orc env root id volumeId base size).env.locals = env.locals ∨
    ∃ b, lookupKey env.locals (getConfigFilename root id) = some b ∧
      (AddVolume orc env root id volumeId base size).env.locals =
        insertKey env.locals (getConfigFilename root id)
          { b with Volumes := insertKey b.Volumes volumeId ⟨size, base, ""⟩ } := by
  simp only [AddVolume]
  split
  · exact Or.inl rfl
  · rename_i b heq
    split
    · exact Or.inl rfl
    · split
      · exact Or.inl rfl
      · split
        · exact Or.inl rfl
        · split
          · exact Or.inr ⟨b, heq, rfl⟩
          · split
            · exact Or.inr ⟨b, heq, rfl⟩
            · exact Or.inr ⟨b, heq, rfl⟩

theorem RemoveVolume_locals (orc : BsOracle) (env : BsEnv) (root id volumeId : String) :
    (RemoveVolume orc env root id volumeId).env.locals = env.locals ∨
    ∃ b, lookupKey env.locals (getConfigFilename root id) = some b ∧
      (RemoveVolume orc env root id volumeId).env.locals =
        insertKey env.locals (getConfigFilename root id)
          { b with Volumes := eraseKey b.Volumes volumeId } := by
  simp only [RemoveVolume]
  split
  · exact Or.inl rfl
  · rename_i b heq
    split
    · exact Or.inl rfl
    · split
      · exact Or.inl rfl
      · split
        · exact Or.inl rfl
        · exact Or.inr ⟨b, heq, rfl⟩

/-- C8: the BlockSize of a blockstore record is never modified: after
AddVolume, RemoveVolume or BackupSnapshot, whatever record sits at the
blockstore config file has the BlockSize of the record that was loaded. -/
theorem blockSize_immutable (orc : BsOracle) (env : BsEnv) (sha512 : List Nat → List Nat)
    (se : SnapEnv) (root id volumeId base snapshotId : String) (size : Nat) (b : BlockStore)
    (h : lookupKey env.locals (getConfigFilename root id) = some b) :
    (∀ b', lookupKey (AddVolume orc env root id volumeId base size).env.locals
        (getConfigFilename root id) = some b' → b'.BlockSize = b.BlockSize) ∧
    (∀ b', lookupKey (RemoveVolume orc env root id volumeId).env.locals
        (getConfigFilename root id) = some b' → b'.BlockSize = b.BlockSize) ∧
    (∀ b', lookupKey (BackupSnapshot sha512 se orc env root snapshotId volumeId id).env.locals
        (getConfigFilename root id) = some b' → b'.BlockSize = b.BlockSize) := by
  refine ⟨?_, ?_, ?_⟩
  · intro b' hb'
    rcases AddVolume_locals orc env root id volumeId base size with hl | ⟨b0, hb0, hl⟩
    · rw [hl, h] at hb'
      injection hb' with hb'
      rw [← hb']
    · rw [hb0] at h
      injection h with h
      rw [hl, lookupKey_insertKey_self] at hb'
      injection hb' with hb'
      rw [← hb', ← h]
  · intro b' hb'
    rcases RemoveVolume_locals orc env root id volumeId with hl | ⟨b0, hb0, hl⟩
    · rw [hl, h] at hb'
      injection hb' with hb'
      rw [← hb']
    · rw [hb0] at h
      injection h with h
      rw [hl, lookupKey_insertKey_self] at hb'
      injection hb' with hb'
      rw [← hb', ← h]
  · intro b' hb'
    rcases BackupSnapshot_cases sha512 se orc env root snapshotId volumeId id with
      ⟨_, hloc, _⟩ | ⟨_, ⟨b0, hb0, hloc⟩, _, _⟩
    · rw [hloc, h] at hb'
      injection hb' with hb'
      rw [← hb']
    · rw [hb0] at h
      injection h with h
      rw [hloc, lookupKey_insertKey_self] at hb'
      injection hb' with hb'
      rw [← hb', ← h]

/-- Witness for C8 at the concrete first-backup environment. -/
theorem blockSize_immutable_witness :
    lookupKey c2env.locals (getConfigFilename "r" "bs") = some c2store ∧
    ((∀ b', lookupKey (AddVolume noFail c2env "r" "bs" "v2" "" 8).env.locals
        (getConfigFilename "r" "bs") = some b' → b'.BlockSize = c2store.BlockSize) ∧
     (∀ b', lookupKey (RemoveVolume noFail c2env "r" "bs" "v2").env.locals
        (getConfigFilename "r" "bs") = some b' → b'.BlockSize = c2store.BlockSize) ∧
     (∀ b', lookupKey
        (BackupSnapshot zeroHash c2snapEnv noFail c2env "r" "s1" "v" "bs").env.locals
        (getConfigFilename "r" "bs") = some b' → b'.BlockSize = c2store.BlockSize)) :=
  ⟨by decide,
   blockSize_immutable noFail c2env zeroHash c2snapEnv "r" "bs" "v2" "" "s1" 8 c2store
     (by decide)⟩
